import Mathlib

/-!
Verification of the `sftptester` repository (files `sftp_config.py` and
`sftp_tester.py`) against its natural-language specification.

The program is shallowly embedded as pure Lean functions.  External effects
(the wall clock, `os.urandom`, `random.randint`, the zip compressor, the
filesystem and the SFTP endpoint reached through paramiko) are supplied as an
explicit environment value:

* durations returned by `time.monotonic` differences are abstract natural
  numbers; every external call carries the duration the environment assigns
  to it (tqdm progress-bar calls are instantaneous),
* `random.randint(a, b)` is modelled as `a + seed % (b - a + 1)` for an
  environment-chosen seed, which ranges exactly over the inclusive interval,
* the byte size reported by `os.path.getsize` for a generated archive is an
  environment function `zipSize` of the uncompressed payload size,
* every fallible external call is an `Except` value chosen by the
  environment; a Python exception that the source code does not catch is
  propagated as an `Except.error` result,
* the scratch directory is a list of file names threaded through the run,
* the observable interactions with the endpoint (session open/close, SFTP
  subchannel open/close, put, remove, sleep) are recorded in an event trace.

`run_tests` dispatches the artifacts to a thread pool and collects the
futures with `as_completed`; every submitted operation runs to completion
(the executor's shutdown waits for them) and the per-artifact processing
shares no state, so the run is embedded as the canonical linearization that
processes artifacts in submission order.
-/

/-- Configuration record, translated from `SFTPConfig.__init__` in
`sftp_config.py`; the default value of every field is the one assigned
there (`keep_alive_enabled = 0` becomes `false`). -/
structure SFTPConfig where
  host : String := ""
  username : String := ""
  root_dir : String := "/"
  ssh_private_key_passphrase : Option String := none
  ssh_private_key_path : Option String := none
  min_test_file_size_bytes : Nat := 6000
  max_test_file_size_bytes : Nat := 64000000
  num_test_files : Nat := 1
  connect_timeout_seconds : Int := 20
  transfer_timeout_seconds : Int := 20
  sftp_threads : Int := 1
  sftp_sleep_interval : Int := -1
  keep_alive_enabled : Bool := false
  retry_attempts : Int := 0
deriving DecidableEq

/-- Per-file statistics record, translated from the `FileStat` dataclass in
`sftp_tester.py` (durations are abstract time units). -/
structure FileStat where
  name : String
  size : Nat
  connect_time : Nat
  transfer_time : Nat
  success : Bool
  error : Option String := none
deriving DecidableEq

/-- Run-level report, translated from the `TestReport` dataclass. -/
structure TestReport where
  file_stats : List FileStat := []
deriving DecidableEq

/-- Method `add` of `TestReport`: appends one statistics record. -/
def TestReport.add (r : TestReport) (stat : FileStat) : TestReport :=
  { file_stats := r.file_stats ++ [stat] }

/-- Observable interactions of the core with the outside world. -/
inductive Event where
  | sessionOpen
  | connectFailed
  | sessionClose
  | sftpOpen
  | sftpClose
  | putCall (remote_name : String)
  | removeCall (remote_name : String)
  | sleepCall (seconds : Int)
deriving DecidableEq

/-- Decidable equality for `Except` values, used to evaluate the model on
concrete inputs. -/
def exceptDecEq {ε α : Type} [DecidableEq ε] [DecidableEq α] :
    (a b : Except ε α) → Decidable (a = b)
  | Except.error e1, Except.error e2 =>
      if h : e1 = e2 then isTrue (by rw [h])
      else isFalse (fun hh => by cases hh; exact h rfl)
  | Except.error _, Except.ok _ => isFalse (fun hh => Except.noConfusion hh)
  | Except.ok _, Except.error _ => isFalse (fun hh => Except.noConfusion hh)
  | Except.ok a1, Except.ok a2 =>
      if h : a1 = a2 then isTrue (by rw [h])
      else isFalse (fun hh => by cases hh; exact h rfl)

instance {ε α : Type} [DecidableEq ε] [DecidableEq α] : DecidableEq (Except ε α) :=
  exceptDecEq

/-- Environment of a single `sftp_operation` call: the outcome the external
world assigns to each paramiko call the operation makes.  A successful call
carries its duration; a failing call carries the elapsed duration and the
string of the raised exception. -/
structure TransferEnv where
  connect : Except (Nat × String) Nat
  open_sftp : Except String Unit
  put : Except (Nat × String) Nat
  remove : Except (Nat × String) Nat
deriving DecidableEq

/-- How one `create_random_zip` call ends.  `zipfile.ZipFile(destination, "w")`
creates the destination file before any payload is written into it, so a
failure raised inside the with-block (e.g. `ENOSPC` during `zf.write`)
leaves a partial destination file behind, while a failure before the
archive is opened (e.g. while writing `data.bin` inside the private
`TemporaryDirectory`) leaves nothing in the scratch directory. -/
inductive GenResult where
  | ok
  | failBeforeCreate (msg : String)
  | failAfterCreate (msg : String)
deriving DecidableEq

/-- Predicate for the failure mode that leaves a
partially written archive in the scratch directory. -/
def GenResult.leavesPartial : GenResult → Bool
  | GenResult.failAfterCreate _ => true
  | _ => false

/-- Environment of a whole `run_tests` call. -/
structure RunEnv where
  /-- outcome of `tempfile.mkdtemp()` -/
  scratch : Except String Unit
  /-- seed consumed by `random.randint` for artifact `i` -/
  rand : Nat → Nat
  /-- on-disk byte size of the archive wrapping `n` uncompressed random bytes -/
  zipSize : Nat → Nat
  /-- outcome of `create_random_zip` for artifact `i` -/
  gen : Nat → GenResult
  /-- outcome of the warm-up `_create_client` call for pool slot `j` -/
  warm : Nat → Except String Nat
  /-- outcomes of the paramiko calls made while transferring artifact `i` -/
  transfer : Nat → TransferEnv
  /-- value of `os.cpu_count()` -/
  cpu_count : Nat

/-- Model of `random.randint(a, b)`: a uniformly random integer of the inclusive
range `[a, b]`, modelled as `a + seed % (b - a + 1)`. -/
def randint (a b seed : Nat) : Nat :=
  a + seed % (b - a + 1)

/-- Local (and remote) file name of artifact `i`: `f"test_{i}.zip"`. -/
def artifactName (i : Nat) : String :=
  "test_" ++ toString i ++ ".zip"

/-- The keyword arguments `_create_client` passes to
`paramiko.SSHClient.connect`, translated from `sftp_tester._create_client`. -/
structure ConnectCall where
  hostname : String
  username : String
  key_filename : Option String
  passphrase : Option String
  timeout : Option Int
deriving DecidableEq

/-- Translation of `_create_client`: builds the `connect` call from the
configuration.  Only the literal value `-1` of `connect_timeout_seconds` is
turned into `timeout=None` (no timeout); every other value, negative or
not, is passed through as the timeout. -/
def _create_client (config : SFTPConfig) : ConnectCall :=
  { hostname := config.host
    username := config.username
    key_filename := config.ssh_private_key_path
    passphrase := config.ssh_private_key_passphrase
    timeout :=
      if config.connect_timeout_seconds = -1 then none
      else some config.connect_timeout_seconds }

/-- Translation of `create_random_zip destination size` acting on the scratch
directory state `fs`: on success the finished archive `destination` exists
afterwards; a failure raises (the returned message) and leaves the partial
file behind exactly in the `failAfterCreate` mode. -/
def create_random_zip (fs : List String) (destination : String) (g : GenResult) :
    List String × Option String :=
  match g with
  | GenResult.ok => (fs ++ [destination], none)
  | GenResult.failBeforeCreate e => (fs, some e)
  | GenResult.failAfterCreate e => (fs ++ [destination], some e)

/-- Body of `sftp_operation` from the `sftp = client.open_sftp()` line on
(source lines 115-144), shared by the pooled-client and the
freshly-connected paths.  `connect_time` and `evs` are the connect duration
and events produced by the part before it.  The `open_sftp` call is not
inside any try-block in the source, so its failure aborts the operation:
nothing further runs (no `sftp.close()`, no `client.close()`, no sleep) and
the exception escapes as an `Except.error`.  The measured transfer time
starts before `sftp.put` and is read after the try-block, so it covers the
upload, and the remote `sftp.remove` when the upload succeeded. -/
def sftp_operation_body (config : SFTPConfig) (file_size : Nat) (remote_name : String)
    (connect_time : Nat) (evs : List Event) (tenv : TransferEnv) :
    List Event × Except String FileStat :=
  match tenv.open_sftp with
  | Except.error e => (evs, Except.error e)
  | Except.ok _ =>
    let evs1 := evs ++ [Event.sftpOpen]
    let step :
        Nat × Bool × Option String × List Event :=
      match tenv.put with
      | Except.error de => (de.1, false, some de.2, [Event.putCall remote_name])
      | Except.ok dput =>
        match tenv.remove with
        | Except.error de =>
            (dput + de.1, false, some de.2,
             [Event.putCall remote_name, Event.removeCall remote_name])
        | Except.ok drem =>
            (dput + drem, true, none,
             [Event.putCall remote_name, Event.removeCall remote_name])
    let evs2 := evs1 ++ step.2.2.2 ++ [Event.sftpClose]
    let evs3 :=
      match config.keep_alive_enabled with
      | true => evs2
      | false => evs2 ++ [Event.sessionClose]
    let evs4 :=
      if config.sftp_sleep_interval > 0 then
        evs3 ++ [Event.sleepCall config.sftp_sleep_interval]
      else evs3
    (evs4,
     Except.ok
       { name := remote_name, size := file_size, connect_time := connect_time,
         transfer_time := step.1, success := step.2.1, error := step.2.2.1 })

/-- Translation of `sftp_operation`.  `clientGiven` states whether a pooled
client was passed (in `run_tests` this happens exactly when keep-alive is
enabled).  With no pooled client a fresh client is connected; on a connect
failure the function returns immediately with a failed `FileStat` whose
transfer time is `0` — no SFTP subchannel, no close and no sleep happen on
that path.  The second component is the produced statistics record, or the
message of an exception the source lets escape. -/
def sftp_operation (config : SFTPConfig) (file_size : Nat) (remote_name : String)
    (clientGiven : Bool) (tenv : TransferEnv) :
    List Event × Except String FileStat :=
  match clientGiven with
  | true => sftp_operation_body config file_size remote_name 0 [] tenv
  | false =>
    match tenv.connect with
    | Except.error de =>
        ([Event.connectFailed],
         Except.ok
           { name := remote_name, size := file_size, connect_time := de.1,
             transfer_time := 0, success := false, error := some de.2 })
    | Except.ok d =>
        sftp_operation_body config file_size remote_name d [Event.sessionOpen] tenv

/-- The payload size drawn for artifact `i` in the generation loop of
`run_tests`: `random.randint(min_test_file_size_bytes, max_test_file_size_bytes)`. -/
def drawnSize (config : SFTPConfig) (env : RunEnv) (i : Nat) : Nat :=
  randint config.min_test_file_size_bytes config.max_test_file_size_bytes (env.rand i)

/-- On-disk size of artifact `i`, i.e. what `os.path.getsize` returns for the
archive `create_random_zip` wrote for the drawn payload size. -/
def diskSize (config : SFTPConfig) (env : RunEnv) (i : Nat) : Nat :=
  env.zipSize (drawnSize config env i)

/-- The generation loop of `run_tests` (source lines 152-156).  The first
argument is the number of artifacts still to generate, the second the index
of the next one; `fs` is the scratch-directory state and `ps` the `paths`
list of `(name, on-disk size)` pairs built so far.  A generation failure
returns the raised message; the loop stops there, as the exception jumps to
the `finally` block of the source. -/
def generateAux (env : RunEnv) (mn mx : Nat) :
    Nat → Nat → List String → List (String × Nat) →
    List String × List (String × Nat) × Option String
  | 0, _, fs, ps => (fs, ps, none)
  | n + 1, i, fs, ps =>
    let size := randint mn mx (env.rand i)
    let name := artifactName i
    match env.gen i with
    | GenResult.ok =>
        generateAux env mn mx n (i + 1) (fs ++ [name]) (ps ++ [(name, env.zipSize size)])
    | GenResult.failBeforeCreate e => (fs, ps, some e)
    | GenResult.failAfterCreate e => (fs ++ [name], ps, some e)

/-- Worker count `max_workers` of `run_tests`: the configured thread count when positive,
otherwise `os.cpu_count()`. -/
def max_workers (config : SFTPConfig) (cpu : Nat) : Nat :=
  if config.sftp_threads > 0 then config.sftp_threads.toNat else cpu

/-- The keep-alive warm-up loop `[_create_client(config) for _ in range(max_workers)]`:
each successful connect opens one pooled session; a failing connect raises
immediately, so the sessions already opened stay open and unclosed. -/
def warmupAux (env : RunEnv) : Nat → Nat → List Event × Option String
  | 0, _ => ([], none)
  | n + 1, j =>
    match env.warm j with
    | Except.error e => ([], some e)
    | Except.ok _ =>
        let r := warmupAux env n (j + 1)
        (Event.sessionOpen :: r.1, r.2)

/-- The dispatch loop: artifact `idx` of the `paths` list is submitted as
`sftp_operation(config, path, name, clients[idx % max_workers], idx)`;
since the pooled clients list is all-`None` exactly when keep-alive is
disabled, the operation receives a client exactly when keep-alive is
enabled.  Every submitted operation runs (the executor waits for all of
them), so all event traces are produced. -/
def transferAux (op : Nat → String × Nat → List Event × Except String FileStat) :
    List (String × Nat) → Nat → List (List Event × Except String FileStat)
  | [], _ => []
  | p :: rest, idx => op idx p :: transferAux op rest (idx + 1)

/-- Fallback statistics value used only to state list normal forms. -/
def defaultStat : FileStat :=
  { name := "", size := 0, connect_time := 0, transfer_time := 0,
    success := false, error := none }

/-- Unwraps a completed operation result. -/
def getOk (x : Except String FileStat) : FileStat :=
  match x with
  | Except.ok s => s
  | Except.error _ => defaultStat

/-- The `as_completed` collection loop (source lines 172-174): statistics are
added to the report until some `future.result()` re-raises an exception
that escaped `sftp_operation`; that exception aborts the loop. -/
def collectReport : List (Except String FileStat) → List FileStat × Option String
  | [] => ([], none)
  | Except.error e :: _ => ([], some e)
  | Except.ok s :: rest =>
      let r := collectReport rest
      (s :: r.1, r.2)

/-- An exception escaping `run_tests`, classified by the source line that
raises it. -/
inductive RunExc where
  /-- scratch-directory creation or payload-write failure (lines 148 and 155) -/
  | setup (msg : String)
  /-- failure of `_create_client` in the keep-alive warm-up list (line 159) -/
  | warmConnect (msg : String)
  /-- exception re-raised by `future.result()`, i.e. one that escaped
  `sftp_operation` (line 173) -/
  | op (msg : String)
  /-- error raised by `os.rmdir` in the `finally` block (line 187) -/
  | cleanup (msg : String)
deriving DecidableEq

/-- Whether an escaped exception is a setup error in the sense of the spec
(scratch directory or payload write failure). -/
def RunExc.isSetup : RunExc → Bool
  | RunExc.setup _ => true
  | _ => false

/-- Files still in the scratch directory after the cleanup loop of the
`finally` block, which removes exactly the files recorded in `paths`. -/
def cleanupFs (fs : List String) (ps : List (String × Nat)) : List String :=
  fs.filter (fun f => decide (f ∉ ps.map Prod.fst))

/-- The `finally` block of `run_tests`: the files recorded in `paths` are
removed, then `os.rmdir(temp_dir)` runs.  When an untracked file remains
the `rmdir` raises, and in Python an exception raised inside `finally`
supersedes both a pending exception and a pending return value. -/
def finishWith (fs : List String) (ps : List (String × Nat))
    (res : Except RunExc TestReport) (evs : List Event) :
    Except RunExc TestReport × List String × List Event :=
  let remaining := cleanupFs fs ps
  (if remaining.isEmpty then res
   else Except.error (RunExc.cleanup "Directory not empty"),
   remaining, evs)

/-- Translation of `run_tests`.  Returns the report (or the escaped
exception), the files left in the scratch directory after the `finally`
block, and the event trace of the run. -/
def run_tests (config : SFTPConfig) (env : RunEnv) :
    Except RunExc TestReport × List String × List Event :=
  match env.scratch with
  | Except.error e => (Except.error (RunExc.setup e), [], [])
  | Except.ok _ =>
    match generateAux env config.min_test_file_size_bytes
        config.max_test_file_size_bytes config.num_test_files 0 [] [] with
    | (fs, ps, some e) => finishWith fs ps (Except.error (RunExc.setup e)) []
    | (fs, ps, none) =>
      let mw := max_workers config env.cpu_count
      let operation := fun (idx : Nat) (p : String × Nat) =>
        sftp_operation config p.2 p.1 config.keep_alive_enabled (env.transfer idx)
      match config.keep_alive_enabled with
      | true =>
        match warmupAux env mw 0 with
        | (wEvs, some e) =>
            finishWith fs ps (Except.error (RunExc.warmConnect e)) wEvs
        | (wEvs, none) =>
          let results := transferAux operation ps 0
          let tEvs := (results.map Prod.fst).flatten
          match collectReport (results.map Prod.snd) with
          | (_, some e) =>
              finishWith fs ps (Except.error (RunExc.op e)) (wEvs ++ tEvs)
          | (stats, none) =>
              finishWith fs ps (Except.ok { file_stats := stats })
                (wEvs ++ tEvs ++ List.replicate mw Event.sessionClose)
      | false =>
        let results := transferAux operation ps 0
        let tEvs := (results.map Prod.fst).flatten
        match collectReport (results.map Prod.snd) with
        | (_, some e) => finishWith fs ps (Except.error (RunExc.op e)) tEvs
        | (stats, none) => finishWith fs ps (Except.ok { file_stats := stats }) tEvs

/-- The operation run for artifact `i` of a run, with the arguments
`run_tests` passes it. -/
def opRun (config : SFTPConfig) (env : RunEnv) (i : Nat) :
    List Event × Except String FileStat :=
  sftp_operation config (diskSize config env i) (artifactName i)
    config.keep_alive_enabled (env.transfer i)

/-- Number of successful session opens in a trace. -/
def countOpens : List Event → Nat
  | [] => 0
  | Event.sessionOpen :: r => countOpens r + 1
  | _ :: r => countOpens r

/-- Number of session closes in a trace. -/
def countCloses : List Event → Nat
  | [] => 0
  | Event.sessionClose :: r => countCloses r + 1
  | _ :: r => countCloses r

/-- Number of sleep pauses in a trace. -/
def countSleeps : List Event → Nat
  | [] => 0
  | Event.sleepCall _ :: r => countSleeps r + 1
  | _ :: r => countSleeps r

/-- The list `[s, s+1, ..., s+n-1]` of artifact indices. -/
def idxList : Nat → Nat → List Nat
  | _, 0 => []
  | s, n + 1 => s :: idxList (s + 1) n

/-! ### Normal forms of a completed run -/

/-- The `paths` list a failure-free generation phase produces. -/
def expectedPaths (config : SFTPConfig) (env : RunEnv) : List (String × Nat) :=
  (idxList 0 config.num_test_files).map
    (fun j => (artifactName j, diskSize config env j))

/-- Events of the dispatch phase: the traces of the per-artifact operations
in submission order. -/
def transferEvents (config : SFTPConfig) (env : RunEnv) : List Event :=
  ((idxList 0 config.num_test_files).map (fun i => (opRun config env i).1)).flatten

/-- Event trace of a run that completes normally. -/
def normalEvents (config : SFTPConfig) (env : RunEnv) : List Event :=
  (match config.keep_alive_enabled with
   | true => List.replicate (max_workers config env.cpu_count) Event.sessionOpen
   | false => []) ++
  transferEvents config env ++
  (match config.keep_alive_enabled with
   | true => List.replicate (max_workers config env.cpu_count) Event.sessionClose
   | false => [])

/-- Report of a run that completes normally: one statistics record per
artifact, indexed by artifact number. -/
def normalReport (config : SFTPConfig) (env : RunEnv) : TestReport :=
  { file_stats :=
      (idxList 0 config.num_test_files).map (fun i => getOk (opRun config env i).2) }


/-! ### Concrete fixtures -/

/-- A transfer environment in which every call succeeds. -/
def okTransfer : TransferEnv :=
  { connect := Except.ok 1, open_sftp := Except.ok (), put := Except.ok 2,
    remove := Except.ok 1 }

/-- A run environment in which everything succeeds; the archive wrapping `n`
incompressible random bytes occupies `n + 130` bytes on disk (payload plus
zip local header, central directory and end-of-central-directory records). -/
def baseEnv : RunEnv :=
  { scratch := Except.ok (), rand := fun _ => 0, zipSize := fun s => s + 130,
    gen := fun _ => GenResult.ok, warm := fun _ => Except.ok 1,
    transfer := fun _ => okTransfer, cpu_count := 4 }

/-- One artifact of exactly 1000 payload bytes over one worker. -/
def baseCfg : SFTPConfig :=
  { host := "h", username := "u",
    min_test_file_size_bytes := 1000, max_test_file_size_bytes := 1000,
    num_test_files := 1, sftp_threads := 1 }

def c1aEnv : RunEnv :=
  { baseEnv with transfer := fun _ => { okTransfer with open_sftp := Except.error "boom" } }

def c1bCfg : SFTPConfig := { baseCfg with keep_alive_enabled := true }

def c1bEnv : RunEnv := { baseEnv with warm := fun _ => Except.error "down" }

def c1wCfg : SFTPConfig := { baseCfg with num_test_files := 2 }

def c1wEnv : RunEnv :=
  { baseEnv with transfer := fun i =>
      if i = 0 then { okTransfer with put := Except.error (2, "io") }
      else { okTransfer with connect := Except.error (3, "down") } }

/-- The report a fully successful one-artifact run over `baseCfg` produces. -/
def baseRep : TestReport :=
  { file_stats :=
      [{ name := "test_0.zip", size := 1130, connect_time := 1,
         transfer_time := 3, success := true, error := none }] }

def c4Env : RunEnv :=
  { baseEnv with transfer := fun _ =>
      { okTransfer with put := Except.ok 3, remove := Except.ok 5 } }

/-- The report of the run over `c4Env`: upload takes 3, delete takes 5, and
the recorded transfer time is 8. -/
def c4Rep : TestReport :=
  { file_stats :=
      [{ name := "test_0.zip", size := 1130, connect_time := 1,
         transfer_time := 8, success := true, error := none }] }

def c5Env : RunEnv :=
  { baseEnv with transfer := fun _ =>
      { okTransfer with connect := Except.error (3, "down") } }

def c5wCfg : SFTPConfig := { baseCfg with num_test_files := 3 }

def c5wEnv : RunEnv :=
  { baseEnv with transfer := fun i =>
      if i = 1 then { okTransfer with connect := Except.error (3, "down") }
      else okTransfer }

def c6Cfg : SFTPConfig := { baseCfg with keep_alive_enabled := true }

def c6wCfg : SFTPConfig :=
  { baseCfg with keep_alive_enabled := true, sftp_threads := 2, num_test_files := 3 }

def c6wEnv : RunEnv :=
  { baseEnv with transfer := fun i =>
      if i = 1 then { okTransfer with put := Except.error (2, "io") }
      else okTransfer }

def c7Cfg : SFTPConfig := { baseCfg with sftp_sleep_interval := 5 }

def c8Env : RunEnv :=
  { baseEnv with gen := fun _ => GenResult.failAfterCreate "disk full" }

def c8wEnv : RunEnv :=
  { baseEnv with gen := fun _ => GenResult.failBeforeCreate "no space" }

def c9Cfg : SFTPConfig := { baseCfg with connect_timeout_seconds := -2 }


/-! ### Distinctness of artifact names -/

/-- Value of a list of decimal digit characters, most significant first. -/
def digitsVal : List Char → Nat
  | [] => 0
  | c :: r => (c.toNat - 48) * 10 ^ r.length + digitsVal r

theorem digitChar_toNat (d : Nat) (h : d < 10) : (Nat.digitChar d).toNat = d + 48 := by
  revert d h
  decide

theorem toDigitsCore_val (f : Nat) : ∀ n ds, n < 10 ^ f →
    digitsVal (Nat.toDigitsCore 10 f n ds) = n * 10 ^ ds.length + digitsVal ds := by
  induction f with
  | zero =>
      intro n ds h
      simp at h
      simp [h, Nat.toDigitsCore]
  | succ f ih =>
      intro n ds h
      rw [Nat.toDigitsCore]
      have hm : (Nat.digitChar (n % 10)).toNat - 48 = n % 10 := by
        rw [digitChar_toNat (n % 10) (Nat.mod_lt _ (by norm_num))]
        omega
      by_cases h0 : n / 10 = 0
      · have hn : n % 10 = n := Nat.mod_eq_of_lt (by omega)
        simp only [h0, reduceIte, digitsVal, hm]
        rw [hn]
      · simp only [h0, if_false]
        have hdiv : n / 10 < 10 ^ f := by
          rw [Nat.div_lt_iff_lt_mul (by norm_num)]
          calc n < 10 ^ (f + 1) := h
            _ = 10 ^ f * 10 := by ring
        rw [ih (n / 10) (Nat.digitChar (n % 10) :: ds) hdiv]
        simp only [digitsVal, List.length_cons, hm]
        calc n / 10 * 10 ^ (ds.length + 1) + (n % 10 * 10 ^ ds.length + digitsVal ds)
            = (10 * (n / 10) + n % 10) * 10 ^ ds.length + digitsVal ds := by ring
          _ = n * 10 ^ ds.length + digitsVal ds := by rw [Nat.div_add_mod]

theorem digitsVal_toDigits (n : Nat) : digitsVal (Nat.toDigits 10 n) = n := by
  have h : n < 10 ^ (n + 1) :=
    lt_of_lt_of_le (Nat.lt_pow_self (by norm_num) n)
      (Nat.pow_le_pow_right (by norm_num) (Nat.le_succ n))
  simpa [Nat.toDigits] using toDigitsCore_val (n + 1) n [] h

theorem natRepr_injective : Function.Injective Nat.repr := by
  intro m n h
  have hd : Nat.toDigits 10 m = Nat.toDigits 10 n := by
    have h2 := congrArg String.data h
    simpa [Nat.repr, List.asString] using h2
  have h3 := congrArg digitsVal hd
  simpa [digitsVal_toDigits] using h3

/-- Distinct artifact indices produce distinct file names. -/
theorem artifactName_injective (i j : Nat) (h : artifactName i = artifactName j) :
    i = j := by
  simp only [artifactName] at h
  have h1 := congrArg String.data h
  simp only [String.data_append] at h1
  have h2 := List.append_cancel_right h1
  have h3 := List.append_cancel_left h2
  apply natRepr_injective
  show Nat.repr i = Nat.repr j
  have h4 : (Nat.repr i).data = (Nat.repr j).data := h3
  cases hri : Nat.repr i
  cases hrj : Nat.repr j
  simp_all

/-! ### Trace counting and index-list helpers -/

theorem countOpens_append (l1 l2 : List Event) :
    countOpens (l1 ++ l2) = countOpens l1 + countOpens l2 := by
  induction l1 with
  | nil => simp [countOpens]
  | cons e r ih => cases e <;> simp [countOpens, ih] <;> omega

theorem countCloses_append (l1 l2 : List Event) :
    countCloses (l1 ++ l2) = countCloses l1 + countCloses l2 := by
  induction l1 with
  | nil => simp [countCloses]
  | cons e r ih => cases e <;> simp [countCloses, ih] <;> omega

theorem countSleeps_append (l1 l2 : List Event) :
    countSleeps (l1 ++ l2) = countSleeps l1 + countSleeps l2 := by
  induction l1 with
  | nil => simp [countSleeps]
  | cons e r ih => cases e <;> simp [countSleeps, ih] <;> omega

theorem countOpens_replicate (n : Nat) :
    countOpens (List.replicate n Event.sessionOpen) = n := by
  induction n with
  | zero => rfl
  | succ n ih => simp [List.replicate, countOpens, ih]

theorem countCloses_replicate_open (n : Nat) :
    countCloses (List.replicate n Event.sessionOpen) = 0 := by
  induction n with
  | zero => rfl
  | succ n ih => simp [List.replicate, countCloses, ih]

theorem countCloses_replicate (n : Nat) :
    countCloses (List.replicate n Event.sessionClose) = n := by
  induction n with
  | zero => rfl
  | succ n ih => simp [List.replicate, countCloses, ih]

theorem countOpens_replicate_close (n : Nat) :
    countOpens (List.replicate n Event.sessionClose) = 0 := by
  induction n with
  | zero => rfl
  | succ n ih => simp [List.replicate, countOpens, ih]

theorem idxList_length (n : Nat) : ∀ s, (idxList s n).length = n := by
  induction n with
  | zero => intro s; rfl
  | succ n ih => intro s; simp [idxList, ih]

theorem idxList_mem (n : Nat) : ∀ s j, j ∈ idxList s n ↔ s ≤ j ∧ j < s + n := by
  induction n with
  | zero => intro s j; simp [idxList]
  | succ n ih =>
      intro s j
      simp [idxList, ih]
      omega

theorem idxList_getElem? (n : Nat) : ∀ s i, i < n → (idxList s n)[i]? = some (s + i) := by
  induction n with
  | zero => intro s i h; omega
  | succ n ih =>
      intro s i h
      cases i with
      | zero => simp [idxList]
      | succ i =>
          have h2 := ih (s + 1) i (by omega)
          simp only [idxList, List.getElem?_cons_succ, h2]
          congr 1
          omega

/-! ### Loop characterizations -/

/-- Normal form of the generation loop when it reports no failure. -/
theorem generateAux_none (env : RunEnv) (mn mx : Nat) : ∀ n i fs ps fs2 ps2,
    generateAux env mn mx n i fs ps = (fs2, ps2, none) →
    fs2 = fs ++ (idxList i n).map artifactName ∧
    ps2 = ps ++ (idxList i n).map
      (fun j => (artifactName j, env.zipSize (randint mn mx (env.rand j)))) ∧
    ∀ j, j < n → env.gen (i + j) = GenResult.ok := by
  intro n
  induction n with
  | zero =>
      intro i fs ps fs2 ps2 h
      simp [generateAux, idxList] at h
      simp [idxList, h.1, h.2]
  | succ n ih =>
      intro i fs ps fs2 ps2 h
      rw [generateAux] at h
      cases hg : env.gen i with
      | ok =>
          rw [hg] at h
          obtain ⟨h1, h2, h3⟩ := ih (i + 1) _ _ _ _ h
          refine ⟨?_, ?_, ?_⟩
          · simp [idxList, h1]
          · simp [idxList, h2]
          · intro j hj
            cases j with
            | zero => simpa using hg
            | succ j =>
                have := h3 j (by omega)
                have harr : i + 1 + j = i + (j + 1) := by omega
                rwa [harr] at this
      | failBeforeCreate e => rw [hg] at h; simp at h
      | failAfterCreate e => rw [hg] at h; simp at h

/-- The generation loop succeeds when every `create_random_zip` call does. -/
theorem generateAux_ok (env : RunEnv) (mn mx : Nat) : ∀ n i fs ps,
    (∀ j, j < n → env.gen (i + j) = GenResult.ok) →
    generateAux env mn mx n i fs ps =
      (fs ++ (idxList i n).map artifactName,
       ps ++ (idxList i n).map
         (fun j => (artifactName j, env.zipSize (randint mn mx (env.rand j)))),
       none) := by
  intro n
  induction n with
  | zero =>
      intro i fs ps _
      simp [generateAux, idxList]
  | succ n ih =>
      intro i fs ps hall
      rw [generateAux]
      have h0 : env.gen i = GenResult.ok := by simpa using hall 0 (by omega)
      rw [h0]
      rw [ih (i + 1) _ _ (fun j hj => by
        have := hall (j + 1) (by omega)
        have harr : i + (j + 1) = i + 1 + j := by omega
        rwa [harr] at this)]
      simp [idxList]

/-- The files created by the generation loop all appear in its `paths` list
provided no `create_random_zip` call fails after creating its archive. -/
theorem generateAux_no_partial (env : RunEnv) (mn mx : Nat) : ∀ n i fs ps,
    (∀ j, j < n → (env.gen (i + j)).leavesPartial = false) →
    (∀ f ∈ fs, f ∈ ps.map Prod.fst) →
    ∀ f ∈ (generateAux env mn mx n i fs ps).1,
      f ∈ ((generateAux env mn mx n i fs ps).2.1).map Prod.fst := by
  intro n
  induction n with
  | zero =>
      intro i fs ps _ hinv f hf
      simpa [generateAux] using hinv f (by simpa [generateAux] using hf)
  | succ n ih =>
      intro i fs ps hnp hinv
      rw [generateAux]
      cases hg : env.gen i with
      | ok =>
          apply ih (i + 1)
          · intro j hj
            have := hnp (j + 1) (by omega)
            have harr : i + (j + 1) = i + 1 + j := by omega
            rwa [harr] at this
          · intro f hf
            simp at hf
            rcases hf with hf | hf
            · have := hinv f hf
              simp
              left
              simpa using this
            · simp [hf]
      | failBeforeCreate e =>
          intro f hf
          exact hinv f hf
      | failAfterCreate e =>
          exfalso
          have h0 := hnp 0 (by omega)
          simp only [Nat.add_zero] at h0
          rw [hg] at h0
          simp [GenResult.leavesPartial] at h0

@[simp]
theorem except_isOk_ok {e a : Type} (x : a) : (Except.ok x : Except e a).isOk = true := rfl

@[simp]
theorem except_isOk_error {e a : Type} (x : e) : (Except.error x : Except e a).isOk = false := rfl

/-- Normal form of the warm-up loop when it reports no failure. -/
theorem warmupAux_none (env : RunEnv) : ∀ n j evs,
    warmupAux env n j = (evs, none) →
    evs = List.replicate n Event.sessionOpen := by
  intro n
  induction n with
  | zero =>
      intro j evs h
      simp [warmupAux] at h
      simp [h]
  | succ n ih =>
      intro j evs h
      rw [warmupAux] at h
      cases hw : env.warm j with
      | error e => rw [hw] at h; simp at h
      | ok d =>
          rw [hw] at h
          simp only [] at h
          have h1 : Event.sessionOpen :: (warmupAux env n (j + 1)).1 = evs :=
            congrArg Prod.fst h
          have h2 : (warmupAux env n (j + 1)).2 = none :=
            congrArg (fun p => p.2) h
          have h3 : warmupAux env n (j + 1) = ((warmupAux env n (j + 1)).1, none) := by
            rw [← h2]
          have h4 := ih (j + 1) _ h3
          rw [← h1, h4]
          simp [List.replicate]

/-- The warm-up loop succeeds when every connect does. -/
theorem warmupAux_ok (env : RunEnv) : ∀ n j,
    (∀ k, k < n → (env.warm (j + k)).isOk = true) →
    warmupAux env n j = (List.replicate n Event.sessionOpen, none) := by
  intro n
  induction n with
  | zero => intro j _; simp [warmupAux]
  | succ n ih =>
      intro j hall
      rw [warmupAux]
      have h0 : (env.warm j).isOk = true := by simpa using hall 0 (by omega)
      cases hw : env.warm j with
      | error e => rw [hw] at h0; simp at h0
      | ok d =>
          rw [ih (j + 1) (fun k hk => by
            have := hall (k + 1) (by omega)
            have harr : j + (k + 1) = j + 1 + k := by omega
            rwa [harr] at this)]
          simp [List.replicate]

/-- The dispatch loop over an index-generated path list. -/
theorem transferAux_map (op : Nat → String × Nat → List Event × Except String FileStat)
    (pf : Nat → String × Nat) : ∀ n i,
    transferAux op ((idxList i n).map pf) i = (idxList i n).map (fun j => op j (pf j)) := by
  intro n
  induction n with
  | zero => intro i; simp [idxList, transferAux]
  | succ n ih => intro i; simp [idxList, transferAux, ih (i + 1)]

/-- The collection loop succeeds exactly on lists of successful results, and
then collects them in order. -/
theorem collectReport_none : ∀ l : List (Except String FileStat),
    (collectReport l).2 = none →
    collectReport l = (l.map getOk, none) ∧ ∀ x ∈ l, x.isOk = true := by
  intro l
  induction l with
  | nil => intro _; simp [collectReport]
  | cons x rest ih =>
      intro h
      cases x with
      | error e => simp [collectReport] at h
      | ok s =>
          have h2 : (collectReport rest).2 = none := by
            simp only [collectReport] at h
            exact h
          obtain ⟨hc, hall⟩ := ih h2
          constructor
          · simp only [collectReport, hc]
            simp [getOk]
          · intro x hx
            rcases List.mem_cons.mp hx with rfl | hx2
            · rfl
            · exact hall x hx2

/-- The collection loop succeeds on lists of successful results. -/
theorem collectReport_ok : ∀ l : List (Except String FileStat),
    (∀ x ∈ l, x.isOk = true) → collectReport l = (l.map getOk, none) := by
  intro l
  induction l with
  | nil => intro _; simp [collectReport]
  | cons x rest ih =>
      intro hall
      cases x with
      | error e =>
          have := hall (Except.error e) (by simp)
          simp at this
      | ok s =>
          simp only [collectReport]
          simp [ih (fun x hx => hall x (by simp [hx])), getOk]

/-- Cleanup removes everything when every scratch file is tracked in `paths`. -/
theorem cleanupFs_nil (fs : List String) (ps : List (String × Nat))
    (h : ∀ f ∈ fs, f ∈ ps.map Prod.fst) : cleanupFs fs ps = [] := by
  rw [cleanupFs, List.filter_eq_nil_iff]
  intro f hf
  simp [h f hf]

/-- A `finally` block over an exceptional result never yields a report. -/
theorem finishWith_error_isOk (fs : List String) (ps : List (String × Nat))
    (e : RunExc) (evs : List Event) :
    ((finishWith fs ps (Except.error e) evs).1).isOk = false := by
  rw [finishWith]
  by_cases h : (cleanupFs fs ps).isEmpty <;> simp [h]

/-- A `finally` block over an empty remaining directory passes the pending
result through. -/
theorem finishWith_clean (fs : List String) (ps : List (String × Nat))
    (res : Except RunExc TestReport) (evs : List Event)
    (h : cleanupFs fs ps = []) : finishWith fs ps res evs = (res, [], evs) := by
  simp [finishWith, h]

/-! ### Characterization of a completed run -/

theorem expectedPaths_eq (config : SFTPConfig) (env : RunEnv) :
    expectedPaths config env =
      (idxList 0 config.num_test_files).map
        (fun j => (artifactName j,
          env.zipSize (randint config.min_test_file_size_bytes
            config.max_test_file_size_bytes (env.rand j)))) := rfl

/-- Every scratch file of a failure-free generation phase is tracked. -/
theorem expectedPaths_tracked (config : SFTPConfig) (env : RunEnv) :
    ∀ f ∈ (idxList 0 config.num_test_files).map artifactName,
      f ∈ (expectedPaths config env).map Prod.fst := by
  intro f hf
  simp only [expectedPaths, List.map_map]
  simpa using hf

/-- The dispatch loop applied to the expected paths runs `opRun` on every
artifact index. -/
theorem transferAux_expected (config : SFTPConfig) (env : RunEnv) :
    transferAux
      (fun idx p =>
        sftp_operation config p.2 p.1 config.keep_alive_enabled (env.transfer idx))
      (expectedPaths config env) 0 =
      (idxList 0 config.num_test_files).map (fun j => opRun config env j) := by
  rw [expectedPaths_eq,
    transferAux_map _ _ config.num_test_files 0]
  rfl

/-- A run whose scratch directory, payload writes, warm-up connects and SFTP
subchannel opens all succeed completes normally, whatever its ephemeral
connects, uploads and deletes do. -/
theorem run_ok_of (config : SFTPConfig) (env : RunEnv)
    (hs : env.scratch = Except.ok ())
    (hgen : ∀ i, i < config.num_test_files → env.gen i = GenResult.ok)
    (hwarm : config.keep_alive_enabled = true →
      ∀ j, j < max_workers config env.cpu_count → (env.warm j).isOk = true)
    (hop : ∀ i, i < config.num_test_files → ((opRun config env i).2).isOk = true) :
    run_tests config env =
      (Except.ok (normalReport config env), [], normalEvents config env) := by
  have hgen2 : ∀ j, j < config.num_test_files → env.gen (0 + j) = GenResult.ok := by
    intro j hj
    simpa using hgen j hj
  have hallok : ∀ x ∈ List.map Prod.snd
      ((idxList 0 config.num_test_files).map (fun j => opRun config env j)),
      x.isOk = true := by
    intro x hx
    simp only [List.mem_map] at hx
    obtain ⟨y, ⟨j, hj, rfl⟩, rfl⟩ := hx
    exact hop j (by simpa using (idxList_mem config.num_test_files 0 j).mp hj)
  have hfc : ∀ (res : Except RunExc TestReport) (evs : List Event),
      finishWith ((idxList 0 config.num_test_files).map artifactName)
        (expectedPaths config env) res evs = (res, [], evs) := fun res evs =>
    finishWith_clean _ _ _ _ (cleanupFs_nil _ _ (expectedPaths_tracked config env))
  simp only [run_tests, hs]
  rw [generateAux_ok env _ _ config.num_test_files 0 [] [] hgen2]
  simp only [List.nil_append]
  rw [← expectedPaths_eq, transferAux_expected]
  rw [collectReport_ok _ hallok]
  by_cases hka : config.keep_alive_enabled
  · rw [warmupAux_ok env (max_workers config env.cpu_count) 0 (fun k hk => by
      simpa using hwarm hka k hk)]
    simp only [hka, hfc]
    simp [normalReport, normalEvents, transferEvents, hka, List.map_map, Function.comp_def]
  · simp only [Bool.not_eq_true] at hka
    simp only [hka, hfc]
    simp [normalReport, normalEvents, transferEvents, hka, List.map_map, Function.comp_def]

/-- Every warm-up connect of a warm-up loop that reports no failure succeeded. -/
theorem warmupAux_none_ok (env : RunEnv) : ∀ n j,
    (warmupAux env n j).2 = none → ∀ k, k < n → (env.warm (j + k)).isOk = true := by
  intro n
  induction n with
  | zero => intro j _ k hk; omega
  | succ n ih =>
      intro j h k hk
      rw [warmupAux] at h
      cases hw : env.warm j with
      | error e => rw [hw] at h; simp at h
      | ok d =>
          rw [hw] at h
          simp only [] at h
          cases k with
          | zero => simp [hw]
          | succ k =>
              have h2 := ih (j + 1) h k (by omega)
              have harr : j + 1 + k = j + (k + 1) := by omega
              rwa [harr] at h2

/-- Inversion: a run that completes did so in the normal form, and every
per-artifact operation produced a statistics record. -/
theorem run_ok_inv (config : SFTPConfig) (env : RunEnv)
    (hok : ((run_tests config env).1).isOk = true) :
    run_tests config env =
      (Except.ok (normalReport config env), [], normalEvents config env) ∧
    ∀ i, i < config.num_test_files → ((opRun config env i).2).isOk = true := by
  cases hs : env.scratch with
  | error e => simp only [run_tests, hs] at hok; simp at hok
  | ok u =>
    cases u
    rcases hga : generateAux env config.min_test_file_size_bytes
        config.max_test_file_size_bytes config.num_test_files 0 [] [] with ⟨fs, ps, err⟩
    cases err with
    | some e =>
        simp only [run_tests, hs, hga] at hok
        rw [finishWith_error_isOk] at hok
        simp at hok
    | none =>
        obtain ⟨hfs, hps, hgen0⟩ := generateAux_none env _ _ _ _ _ _ _ _ hga
        have hgen : ∀ i, i < config.num_test_files → env.gen i = GenResult.ok := by
          intro i hi
          simpa using hgen0 i hi
        have hps2 : ps = expectedPaths config env := by
          rw [expectedPaths_eq]
          simpa using hps
        simp only [run_tests, hs, hga] at hok
        rw [hps2, transferAux_expected] at hok
        by_cases hka : config.keep_alive_enabled
        · simp only [hka] at hok
          rcases hw : warmupAux env (max_workers config env.cpu_count) 0 with ⟨wEvs, werr⟩
          rw [hw] at hok
          cases werr with
          | some e =>
              simp only [] at hok
              rw [finishWith_error_isOk] at hok
              simp at hok
          | none =>
              have hwarm0 := warmupAux_none_ok env _ 0 (by rw [hw])
              rcases hcr : collectReport (List.map Prod.snd
                  ((idxList 0 config.num_test_files).map
                    (fun j => opRun config env j))) with ⟨stats, cerr⟩
              rw [hcr] at hok
              cases cerr with
              | some e =>
                  simp only [] at hok
                  rw [finishWith_error_isOk] at hok
                  simp at hok
              | none =>
                  obtain ⟨_, hallok⟩ := collectReport_none _ (by rw [hcr])
                  have hop : ∀ i, i < config.num_test_files →
                      ((opRun config env i).2).isOk = true := by
                    intro i hi
                    apply hallok
                    simp only [List.mem_map]
                    exact ⟨opRun config env i,
                      ⟨i, (idxList_mem _ _ _).mpr ⟨by omega, by omega⟩, rfl⟩, rfl⟩
                  exact ⟨run_ok_of config env hs hgen
                    (fun _ j hj => by simpa using hwarm0 j hj) hop, hop⟩
        · simp only [Bool.not_eq_true] at hka
          simp only [hka] at hok
          rcases hcr : collectReport (List.map Prod.snd
              ((idxList 0 config.num_test_files).map
                (fun j => opRun config env j))) with ⟨stats, cerr⟩
          rw [hcr] at hok
          cases cerr with
          | some e =>
              simp only [] at hok
              rw [finishWith_error_isOk] at hok
              simp at hok
          | none =>
              obtain ⟨_, hallok⟩ := collectReport_none _ (by rw [hcr])
              have hop : ∀ i, i < config.num_test_files →
                  ((opRun config env i).2).isOk = true := by
                intro i hi
                apply hallok
                simp only [List.mem_map]
                exact ⟨opRun config env i,
                  ⟨i, (idxList_mem _ _ _).mpr ⟨by omega, by omega⟩, rfl⟩, rfl⟩
              exact ⟨run_ok_of config env hs hgen
                (fun hcontra _ _ => by rw [hka] at hcontra; cases hcontra) hop, hop⟩

/-! ### Per-operation facts -/

/-- An operation whose SFTP subchannel opens produces a statistics record
(whatever its connect, upload and delete do). -/
theorem sftp_operation_isOk (config : SFTPConfig) (file_size : Nat) (remote_name : String)
    (clientGiven : Bool) (tenv : TransferEnv)
    (hopen : (tenv.open_sftp).isOk = true) :
    ((sftp_operation config file_size remote_name clientGiven tenv).2).isOk = true := by
  cases hopen2 : tenv.open_sftp with
  | error e => rw [hopen2] at hopen; simp at hopen
  | ok u =>
      cases clientGiven with
      | true => simp [sftp_operation, sftp_operation_body, hopen2]
      | false =>
          cases hc : tenv.connect with
          | error de => simp [sftp_operation, hc]
          | ok d => simp [sftp_operation, sftp_operation_body, hc, hopen2]

/-- The name and size recorded in a produced statistics record are the
remote name and the local file size passed to the operation. -/
theorem sftp_operation_name_size (config : SFTPConfig) (file_size : Nat)
    (remote_name : String) (clientGiven : Bool) (tenv : TransferEnv) (s : FileStat)
    (h : (sftp_operation config file_size remote_name clientGiven tenv).2 = Except.ok s) :
    s.name = remote_name ∧ s.size = file_size := by
  cases clientGiven with
  | true =>
      cases hopen2 : tenv.open_sftp with
      | error e => simp [sftp_operation, sftp_operation_body, hopen2] at h
      | ok u =>
          simp [sftp_operation, sftp_operation_body, hopen2] at h
          rw [← h]
          exact ⟨rfl, rfl⟩
  | false =>
      cases hc : tenv.connect with
      | error de =>
          simp [sftp_operation, hc] at h
          rw [← h]
          exact ⟨rfl, rfl⟩
      | ok d =>
          cases hopen2 : tenv.open_sftp with
          | error e => simp [sftp_operation, sftp_operation_body, hc, hopen2] at h
          | ok u =>
              simp [sftp_operation, sftp_operation_body, hc, hopen2] at h
              rw [← h]
              exact ⟨rfl, rfl⟩

/-- A produced statistics record of an operation that reached the transfer
phase with a successful upload and a successful delete records the sum of
the two durations as its transfer time: the measured interval starts before
`sftp.put` and ends only after `sftp.remove`. -/
theorem sftp_operation_transfer_time (config : SFTPConfig) (file_size : Nat)
    (remote_name : String) (clientGiven : Bool) (tenv : TransferEnv) (s : FileStat)
    (p r : Nat)
    (hreach : clientGiven = true ∨ (tenv.connect).isOk = true)
    (hput : tenv.put = Except.ok p) (hrem : tenv.remove = Except.ok r)
    (h : (sftp_operation config file_size remote_name clientGiven tenv).2 = Except.ok s) :
    s.transfer_time = p + r ∧ s.success = true := by
  cases clientGiven with
  | true =>
      cases hopen2 : tenv.open_sftp with
      | error e => simp [sftp_operation, sftp_operation_body, hopen2] at h
      | ok u =>
          simp [sftp_operation, sftp_operation_body, hopen2, hput, hrem] at h
          rw [← h]
          exact ⟨rfl, rfl⟩
  | false =>
      cases hc : tenv.connect with
      | error de =>
          rcases hreach with h1 | h1
          · cases h1
          · rw [hc] at h1; simp at h1
      | ok d =>
          cases hopen2 : tenv.open_sftp with
          | error e => simp [sftp_operation, sftp_operation_body, hc, hopen2] at h
          | ok u =>
              simp [sftp_operation, sftp_operation_body, hc, hopen2, hput, hrem] at h
              rw [← h]
              exact ⟨rfl, rfl⟩

/-- An operation given an established client never raises for a reason other
than the SFTP subchannel open: a produced record means the open succeeded. -/
theorem sftp_operation_open_of_isOk (config : SFTPConfig) (file_size : Nat)
    (remote_name : String) (tenv : TransferEnv)
    (h : ((sftp_operation config file_size remote_name true tenv).2).isOk = true) :
    (tenv.open_sftp).isOk = true := by
  cases hopen2 : tenv.open_sftp with
  | error e => simp [sftp_operation, sftp_operation_body, hopen2] at h
  | ok u => rfl

/-- Session open/close counts of one completed ephemeral operation: one open
and one close when the connect succeeded, none at all when it failed. -/
theorem sftp_operation_counts_ephemeral (config : SFTPConfig) (file_size : Nat)
    (remote_name : String) (tenv : TransferEnv)
    (hka : config.keep_alive_enabled = false)
    (hres : ((sftp_operation config file_size remote_name false tenv).2).isOk = true) :
    countOpens (sftp_operation config file_size remote_name false tenv).1 =
      (if (tenv.connect).isOk = true then 1 else 0) ∧
    countCloses (sftp_operation config file_size remote_name false tenv).1 =
      (if (tenv.connect).isOk = true then 1 else 0) := by
  cases hc : tenv.connect with
  | error de => simp [sftp_operation, hc, countOpens, countCloses]
  | ok d =>
      cases hopen2 : tenv.open_sftp with
      | error e => simp [sftp_operation, sftp_operation_body, hc, hopen2] at hres
      | ok u =>
          cases hput : tenv.put with
          | error de2 =>
              by_cases hsl : config.sftp_sleep_interval > 0 <;>
                simp [sftp_operation, sftp_operation_body, hc, hopen2, hput, hka, hsl,
                  countOpens, countCloses, countOpens_append, countCloses_append]
          | ok dput =>
              cases hrem : tenv.remove with
              | error de2 =>
                  by_cases hsl : config.sftp_sleep_interval > 0 <;>
                    simp [sftp_operation, sftp_operation_body, hc, hopen2, hput, hrem, hka,
                      hsl, countOpens, countCloses, countOpens_append, countCloses_append]
              | ok drem =>
                  by_cases hsl : config.sftp_sleep_interval > 0 <;>
                    simp [sftp_operation, sftp_operation_body, hc, hopen2, hput, hrem, hka,
                      hsl, countOpens, countCloses, countOpens_append, countCloses_append]

/-- A pooled operation opens and closes no session of its own. -/
theorem sftp_operation_counts_pooled (config : SFTPConfig) (file_size : Nat)
    (remote_name : String) (tenv : TransferEnv)
    (hka : config.keep_alive_enabled = true)
    (hres : ((sftp_operation config file_size remote_name true tenv).2).isOk = true) :
    countOpens (sftp_operation config file_size remote_name true tenv).1 = 0 ∧
    countCloses (sftp_operation config file_size remote_name true tenv).1 = 0 := by
  cases hopen2 : tenv.open_sftp with
  | error e => simp [sftp_operation, sftp_operation_body, hopen2] at hres
  | ok u =>
      cases hput : tenv.put with
      | error de2 =>
          by_cases hsl : config.sftp_sleep_interval > 0 <;>
            simp [sftp_operation, sftp_operation_body, hopen2, hput, hka, hsl,
              countOpens, countCloses, countOpens_append, countCloses_append]
      | ok dput =>
          cases hrem : tenv.remove with
          | error de2 =>
              by_cases hsl : config.sftp_sleep_interval > 0 <;>
                simp [sftp_operation, sftp_operation_body, hopen2, hput, hrem, hka, hsl,
                  countOpens, countCloses, countOpens_append, countCloses_append]
          | ok drem =>
              by_cases hsl : config.sftp_sleep_interval > 0 <;>
                simp [sftp_operation, sftp_operation_body, hopen2, hput, hrem, hka, hsl,
                  countOpens, countCloses, countOpens_append, countCloses_append]

/-- C7 (amended): after every attempt that reaches the transfer phase (a
pooled client was supplied, or the fresh connect succeeded) and whose SFTP
subchannel opens, the worker pauses exactly once — as its last action —
when the configured sleep interval is positive, and never pauses when it is
non-positive; an attempt whose ephemeral connect fails returns its outcome
immediately, without the pause. -/
theorem C7_amended (config : SFTPConfig) (file_size : Nat)
    (remote_name : String) (clientGiven : Bool) (tenv : TransferEnv)
    (hreach : clientGiven = true ∨ (tenv.connect).isOk = true)
    (hopen : (tenv.open_sftp).isOk = true) :
    countSleeps (sftp_operation config file_size remote_name clientGiven tenv).1 =
      (if config.sftp_sleep_interval > 0 then 1 else 0) ∧
    (config.sftp_sleep_interval > 0 →
      ((sftp_operation config file_size remote_name clientGiven tenv).1).getLast? =
        some (Event.sleepCall config.sftp_sleep_interval)) := by
  cases hopen2 : tenv.open_sftp with
  | error e => rw [hopen2] at hopen; simp at hopen
  | ok u =>
      have body : ∀ ct : Nat,
          countSleeps (sftp_operation_body config file_size remote_name ct
            [Event.sessionOpen] tenv).1 =
            (if config.sftp_sleep_interval > 0 then 1 else 0) ∧
          (config.sftp_sleep_interval > 0 →
            ((sftp_operation_body config file_size remote_name ct
              [Event.sessionOpen] tenv).1).getLast? =
              some (Event.sleepCall config.sftp_sleep_interval)) := by
        intro ct
        cases hput : tenv.put with
        | error de =>
            cases hka2 : config.keep_alive_enabled <;>
              by_cases hsl : config.sftp_sleep_interval > 0 <;>
              simp [sftp_operation_body, hopen2, hput, hka2, hsl, countSleeps,
                countSleeps_append, List.getLast?_concat]
        | ok dput =>
            cases hrem : tenv.remove with
            | error de =>
                cases hka2 : config.keep_alive_enabled <;>
                  by_cases hsl : config.sftp_sleep_interval > 0 <;>
                  simp [sftp_operation_body, hopen2, hput, hrem, hka2, hsl, countSleeps,
                    countSleeps_append, List.getLast?_concat]
            | ok drem =>
                cases hka2 : config.keep_alive_enabled <;>
                  by_cases hsl : config.sftp_sleep_interval > 0 <;>
                  simp [sftp_operation_body, hopen2, hput, hrem, hka2, hsl, countSleeps,
                    countSleeps_append, List.getLast?_concat]
      cases clientGiven with
      | true =>
          have body0 : countSleeps (sftp_operation_body config file_size remote_name
                0 [] tenv).1 =
              (if config.sftp_sleep_interval > 0 then 1 else 0) ∧
            (config.sftp_sleep_interval > 0 →
              ((sftp_operation_body config file_size remote_name 0 [] tenv).1).getLast? =
                some (Event.sleepCall config.sftp_sleep_interval)) := by
            cases hput : tenv.put with
            | error de =>
                cases hka2 : config.keep_alive_enabled <;>
                  by_cases hsl : config.sftp_sleep_interval > 0 <;>
                  simp [sftp_operation_body, hopen2, hput, hka2, hsl, countSleeps,
                    countSleeps_append, List.getLast?_concat]
            | ok dput =>
                cases hrem : tenv.remove with
                | error de =>
                    cases hka2 : config.keep_alive_enabled <;>
                      by_cases hsl : config.sftp_sleep_interval > 0 <;>
                      simp [sftp_operation_body, hopen2, hput, hrem, hka2, hsl, countSleeps,
                        countSleeps_append, List.getLast?_concat]
                | ok drem =>
                    cases hka2 : config.keep_alive_enabled <;>
                      by_cases hsl : config.sftp_sleep_interval > 0 <;>
                      simp [sftp_operation_body, hopen2, hput, hrem, hka2, hsl, countSleeps,
                        countSleeps_append, List.getLast?_concat]
          simp only [sftp_operation]
          exact body0
      | false =>
          cases hc : tenv.connect with
          | error de =>
              rcases hreach with h1 | h1
              · cases h1
              · rw [hc] at h1
                simp at h1
          | ok d =>
              have h2 := body d
              simp only [sftp_operation, hc]
              exact h2

/-! ### Aggregation over a whole run -/

theorem countOpens_flatten (l : List (List Event)) :
    countOpens l.flatten = (l.map countOpens).sum := by
  induction l with
  | nil => rfl
  | cons x r ih => simp [List.flatten_cons, countOpens_append, ih]

theorem countCloses_flatten (l : List (List Event)) :
    countCloses l.flatten = (l.map countCloses).sum := by
  induction l with
  | nil => rfl
  | cons x r ih => simp [List.flatten_cons, countCloses_append, ih]

theorem sum_map_ite (p : Nat → Bool) : ∀ l : List Nat,
    (l.map (fun j => if p j = true then (1 : Nat) else 0)).sum = l.countP p := by
  intro l
  induction l with
  | nil => rfl
  | cons x r ih =>
      by_cases hx : p x = true <;> simp [List.countP_cons, hx, ih] <;> omega

theorem idxList_nodup (n : Nat) : ∀ s, (idxList s n).Nodup := by
  induction n with
  | zero => intro s; simp [idxList]
  | succ n ih =>
      intro s
      simp only [idxList, List.nodup_cons]
      refine ⟨fun hmem => ?_, ih (s + 1)⟩
      have := (idxList_mem n (s + 1) s).mp hmem
      omega

/-- Entry `i` of a normally completed report. -/
theorem normalReport_getElem (config : SFTPConfig) (env : RunEnv) (i : Nat)
    (h : i < config.num_test_files) :
    (normalReport config env).file_stats[i]? = some (getOk (opRun config env i).2) := by
  simp only [normalReport, List.getElem?_map, idxList_getElem? config.num_test_files 0 i h]
  simp

/-- Name and size of the statistics record artifact `i` contributes. -/
theorem opRun_stat (config : SFTPConfig) (env : RunEnv) (i : Nat)
    (h : ((opRun config env i).2).isOk = true) :
    (getOk (opRun config env i).2).name = artifactName i ∧
    (getOk (opRun config env i).2).size = diskSize config env i := by
  cases hr : (opRun config env i).2 with
  | error e => rw [hr] at h; simp at h
  | ok s =>
      have h2 := sftp_operation_name_size config (diskSize config env i) (artifactName i)
        config.keep_alive_enabled (env.transfer i) s hr
      simp [getOk, hr, h2.1, h2.2]

/-- C5 (amended): in a completed run with keep-alive disabled, a fresh
session is opened and closed around each artifact whose connect succeeded —
also when its upload or delete fails — while an artifact whose connect
failed contributes no session open and no session close, so both counts
equal the number of artifacts with a successful connect rather than the
artifact count N. -/
theorem C5_amended (config : SFTPConfig) (env : RunEnv)
    (hka : config.keep_alive_enabled = false)
    (hok : ((run_tests config env).1).isOk = true) :
    countOpens (run_tests config env).2.2 =
      (idxList 0 config.num_test_files).countP
        (fun i => ((env.transfer i).connect).isOk) ∧
    countCloses (run_tests config env).2.2 =
      (idxList 0 config.num_test_files).countP
        (fun i => ((env.transfer i).connect).isOk) := by
  obtain ⟨hrun, hop⟩ := run_ok_inv config env hok
  rw [hrun]
  have hopRun : ∀ i, opRun config env i =
      sftp_operation config (diskSize config env i) (artifactName i) false
        (env.transfer i) := by
    intro i
    simp only [opRun, hka]
  have hptwise : ∀ i ∈ idxList 0 config.num_test_files,
      countOpens (opRun config env i).1 =
        (if ((env.transfer i).connect).isOk = true then 1 else 0) ∧
      countCloses (opRun config env i).1 =
        (if ((env.transfer i).connect).isOk = true then 1 else 0) := by
    intro i hi
    have hi2 : i < config.num_test_files := by
      simpa using (idxList_mem config.num_test_files 0 i).mp hi
    have hres := hop i hi2
    rw [hopRun i] at hres ⊢
    exact sftp_operation_counts_ephemeral config (diskSize config env i)
      (artifactName i) (env.transfer i) hka hres
  simp only [normalEvents, hka]
  constructor
  · rw [countOpens_append, countOpens_append]
    simp only [countOpens, transferEvents]
    rw [countOpens_flatten]
    simp only [List.map_map]
    rw [List.map_congr_left (fun i hi => by
      have h3 := (hptwise i hi).1
      simpa [Function.comp] using h3)]
    rw [sum_map_ite (fun i => ((env.transfer i).connect).isOk)]
    omega
  · rw [countCloses_append, countCloses_append]
    simp only [countCloses, transferEvents]
    rw [countCloses_flatten]
    simp only [List.map_map]
    rw [List.map_congr_left (fun i hi => by
      have h3 := (hptwise i hi).2
      simpa [Function.comp] using h3)]
    rw [sum_map_ite (fun i => ((env.transfer i).connect).isOk)]
    omega

/-- C6 (amended): in a run with keep-alive enabled that completes normally,
exactly `max_workers` sessions are opened (all before dispatch) and exactly
`max_workers` sessions are closed at run end, independent of the artifact
count and of upload or delete failures; a run aborted by an escaped
per-artifact exception or a warm-up connect failure does not close the
sessions it opened, because the close loop is inside the `try` block, not
the `finally` block. -/
theorem C6_amended (config : SFTPConfig) (env : RunEnv)
    (hka : config.keep_alive_enabled = true)
    (hok : ((run_tests config env).1).isOk = true) :
    countOpens (run_tests config env).2.2 = max_workers config env.cpu_count ∧
    countCloses (run_tests config env).2.2 = max_workers config env.cpu_count := by
  obtain ⟨hrun, hop⟩ := run_ok_inv config env hok
  rw [hrun]
  have hopRun : ∀ i, opRun config env i =
      sftp_operation config (diskSize config env i) (artifactName i) true
        (env.transfer i) := by
    intro i
    simp only [opRun, hka]
  have hptwise : ∀ i ∈ idxList 0 config.num_test_files,
      countOpens (opRun config env i).1 = 0 ∧
      countCloses (opRun config env i).1 = 0 := by
    intro i hi
    have hi2 : i < config.num_test_files := by
      simpa using (idxList_mem config.num_test_files 0 i).mp hi
    have hres := hop i hi2
    rw [hopRun i] at hres ⊢
    exact sftp_operation_counts_pooled config (diskSize config env i)
      (artifactName i) (env.transfer i) hka hres
  simp only [normalEvents, hka]
  constructor
  · rw [countOpens_append, countOpens_append]
    simp only [transferEvents]
    rw [countOpens_flatten]
    simp only [List.map_map]
    rw [List.map_congr_left (fun i hi => by
      have h3 := (hptwise i hi).1
      simpa [Function.comp] using h3)]
    simp [countOpens_replicate, countOpens_replicate_close, List.sum_replicate]
  · rw [countCloses_append, countCloses_append]
    simp only [transferEvents]
    rw [countCloses_flatten]
    simp only [List.map_map]
    rw [List.map_congr_left (fun i hi => by
      have h3 := (hptwise i hi).2
      simpa [Function.comp] using h3)]
    simp [countCloses_replicate, countCloses_replicate_open, List.sum_replicate]

/-- C8 (amended): on every exit path (full success, transfer failures, an
escaped per-artifact exception, a warm-up failure, or early termination on
a payload write failure that happens before the archive file is created)
the cleanup in the `finally` block removes every artifact file, leaving the
scratch directory empty; but a payload write failure that happens after
`zipfile.ZipFile(destination, "w")` created the archive leaves that partial
file behind, because it was never appended to `paths`. -/
theorem C8_amended (config : SFTPConfig) (env : RunEnv)
    (hnp : ∀ i, i < config.num_test_files → (env.gen i).leavesPartial = false) :
    (run_tests config env).2.1 = [] := by
  cases hs : env.scratch with
  | error e => simp [run_tests, hs]
  | ok u =>
    cases u
    rcases hga : generateAux env config.min_test_file_size_bytes
        config.max_test_file_size_bytes config.num_test_files 0 [] [] with ⟨fs, ps, err⟩
    have hsub : ∀ f ∈ fs, f ∈ ps.map Prod.fst := by
      have h2 := generateAux_no_partial env config.min_test_file_size_bytes
        config.max_test_file_size_bytes config.num_test_files 0 [] []
        (fun j hj => by simpa using hnp j (by simpa using hj))
        (by intro f hf; simp at hf)
      rw [hga] at h2
      exact h2
    have hclean := cleanupFs_nil fs ps hsub
    cases err with
    | some e =>
        simp only [run_tests, hs, hga]
        simp [finishWith, hclean]
    | none =>
        simp only [run_tests, hs, hga]
        cases hka2 : config.keep_alive_enabled with
        | false =>
            rcases hcr : collectReport (List.map Prod.snd (transferAux (fun idx p =>
                sftp_operation config p.2 p.1 false (env.transfer idx)) ps 0))
              with ⟨stats, cerr⟩
            cases cerr <;> simp [finishWith, hclean]
        | true =>
            rcases hw : warmupAux env (max_workers config env.cpu_count) 0
              with ⟨wEvs, werr⟩
            cases werr with
            | some e => simp [finishWith, hclean]
            | none =>
                rcases hcr : collectReport (List.map Prod.snd (transferAux (fun idx p =>
                    sftp_operation config p.2 p.1 true (env.transfer idx)) ps 0))
                  with ⟨stats, cerr⟩
                cases cerr <;> simp [finishWith, hclean]

/-! ### Claims -/

/-- C1 counterexample: the claim says only a SetupError can escape
`run_tests`, and names two failures that must not propagate.  Both do
propagate in the code: an `open_sftp()` failure on an established client
escapes `sftp_operation` (the call is outside every try-block) and is
re-raised by `future.result()`, and a connect failure while warming up the
pooled clients under keep-alive escapes the list comprehension; neither is
a setup error. -/
theorem C1_counterexample :
    ((run_tests baseCfg c1aEnv).1 = Except.error (RunExc.op "boom") ∧
      (RunExc.op "boom").isSetup = false) ∧
    ((run_tests c1bCfg c1bEnv).1 = Except.error (RunExc.warmConnect "down") ∧
      (RunExc.warmConnect "down").isSetup = false) := by
  decide

/-- C1 (amended): every per-artifact connect, upload or remote-delete error
is captured in that artifact's outcome rather than raised: whenever the
scratch directory and payload writes succeed, the warm-up connects succeed
(when keep-alive is on) and no SFTP-subchannel open raises, the run returns
a report — whatever the ephemeral connects, uploads and deletes do.  What
can escape beyond SetupError: a warm-up connect failure and an
`open_sftp()` failure (see the counterexample). -/
theorem C1_amended (config : SFTPConfig) (env : RunEnv)
    (hs : env.scratch = Except.ok ())
    (hgen : ∀ i, i < config.num_test_files → env.gen i = GenResult.ok)
    (hwarm : config.keep_alive_enabled = true →
      ∀ j, j < max_workers config env.cpu_count → (env.warm j).isOk = true)
    (hopen : ∀ i, i < config.num_test_files →
      ((env.transfer i).open_sftp).isOk = true) :
    ((run_tests config env).1).isOk = true := by
  have hop : ∀ i, i < config.num_test_files →
      ((opRun config env i).2).isOk = true := by
    intro i hi
    exact sftp_operation_isOk _ _ _ _ _ (hopen i hi)
  rw [run_ok_of config env hs hgen hwarm hop]
  rfl

/-- C1 witness: a run in which one upload fails and one ephemeral connect
fails still completes and returns a report. -/
theorem C1_witness :
    c1wEnv.scratch = Except.ok () ∧
    (∀ i, i < c1wCfg.num_test_files → c1wEnv.gen i = GenResult.ok) ∧
    (∀ i, i < c1wCfg.num_test_files →
      ((c1wEnv.transfer i).open_sftp).isOk = true) ∧
    ((run_tests c1wCfg c1wEnv).1).isOk = true :=
  ⟨by decide, by decide, by decide,
    C1_amended c1wCfg c1wEnv (by decide) (by decide)
      (fun h => Bool.noConfusion h) (by decide)⟩

/-- C2: every run that completes yields exactly one outcome per dispatched
artifact: the report has exactly `num_test_files` entries, entry `i` is the
outcome of artifact `i` (so no artifact is missing), and the recorded file
names are pairwise distinct (so none is duplicated). -/
theorem C2_one_outcome_per_artifact (config : SFTPConfig) (env : RunEnv)
    (rep : TestReport)
    (hrun : (run_tests config env).1 = Except.ok rep) :
    rep.file_stats.length = config.num_test_files ∧
    (∀ i, i < config.num_test_files →
      rep.file_stats[i]? = some (getOk (opRun config env i).2) ∧
      (getOk (opRun config env i).2).name = artifactName i) ∧
    (rep.file_stats.map FileStat.name).Nodup := by
  have hok : ((run_tests config env).1).isOk = true := by rw [hrun]; rfl
  obtain ⟨hnf, hop⟩ := run_ok_inv config env hok
  have hrep : rep = normalReport config env := by
    rw [hnf] at hrun
    simpa using hrun.symm
  subst hrep
  refine ⟨?_, ?_, ?_⟩
  · simp [normalReport, idxList_length]
  · intro i hi
    exact ⟨normalReport_getElem config env i hi, (opRun_stat config env i (hop i hi)).1⟩
  · have hnames : (normalReport config env).file_stats.map FileStat.name =
        (idxList 0 config.num_test_files).map artifactName := by
      simp only [normalReport, List.map_map]
      apply List.map_congr_left
      intro i hi
      have hi2 : i < config.num_test_files := by
        simpa using (idxList_mem config.num_test_files 0 i).mp hi
      have h2 := (opRun_stat config env i (hop i hi2)).1
      simpa [Function.comp] using h2
    rw [hnames]
    exact (idxList_nodup config.num_test_files 0).map
      (fun a b h => artifactName_injective a b h)

/-- C2 witness: the one-artifact success run yields a one-entry report. -/
theorem C2_witness :
    (run_tests baseCfg baseEnv).1 = Except.ok baseRep ∧
    (baseRep.file_stats.length = baseCfg.num_test_files ∧
      (∀ i, i < baseCfg.num_test_files →
        baseRep.file_stats[i]? = some (getOk (opRun baseCfg baseEnv i).2) ∧
        (getOk (opRun baseCfg baseEnv i).2).name = artifactName i) ∧
      (baseRep.file_stats.map FileStat.name).Nodup) :=
  ⟨by decide, C2_one_outcome_per_artifact baseCfg baseEnv baseRep (by decide)⟩

theorem randint_bounds (a b seed : Nat) (h : a ≤ b) :
    a ≤ randint a b seed ∧ randint a b seed ≤ b := by
  have h2 := Nat.mod_lt seed (show 0 < b - a + 1 by omega)
  unfold randint
  omega

/-- C3 counterexample: with `minSize = maxSize = 1000` the drawn payload is
exactly 1000 bytes, but the recorded outcome size is read by
`os.path.getsize` from the finished archive, which is larger than the
payload it wraps (1130 bytes here), so the recorded size exceeds
`maxSize`. -/
theorem C3_counterexample :
    baseCfg.min_test_file_size_bytes = 1000 ∧
    baseCfg.max_test_file_size_bytes = 1000 ∧
    (run_tests baseCfg baseEnv).1 = Except.ok baseRep ∧
    baseRep.file_stats.map FileStat.size = [1130] ∧
    ¬(1130 ≤ baseCfg.max_test_file_size_bytes) := by
  decide

/-- C3 (amended): the payload size drawn for each artifact lies in the
inclusive range `[minSize, maxSize]` (an independent uniform draw per
artifact), but the size recorded in the artifact's outcome is the on-disk
size of the compressed archive wrapping that payload, which the code never
constrains to the range. -/
theorem C3_amended (config : SFTPConfig) (env : RunEnv) (rep : TestReport)
    (hmm : config.min_test_file_size_bytes ≤ config.max_test_file_size_bytes)
    (hrun : (run_tests config env).1 = Except.ok rep) :
    ∀ i, i < config.num_test_files →
      config.min_test_file_size_bytes ≤ drawnSize config env i ∧
      drawnSize config env i ≤ config.max_test_file_size_bytes ∧
      rep.file_stats[i]? = some (getOk (opRun config env i).2) ∧
      (getOk (opRun config env i).2).size = env.zipSize (drawnSize config env i) := by
  have hok : ((run_tests config env).1).isOk = true := by rw [hrun]; rfl
  obtain ⟨hnf, hop⟩ := run_ok_inv config env hok
  have hrep : rep = normalReport config env := by
    rw [hnf] at hrun
    simpa using hrun.symm
  subst hrep
  intro i hi
  have hb := randint_bounds config.min_test_file_size_bytes
    config.max_test_file_size_bytes (env.rand i) hmm
  exact ⟨hb.1, hb.2, normalReport_getElem config env i hi,
    (opRun_stat config env i (hop i hi)).2⟩

/-- C3 witness: in the one-artifact run the drawn size is 1000, inside the
configured range, and the recorded size is the archive size of that
payload. -/
theorem C3_witness :
    baseCfg.min_test_file_size_bytes ≤ baseCfg.max_test_file_size_bytes ∧
    (0 < baseCfg.num_test_files) ∧
    (baseCfg.min_test_file_size_bytes ≤ drawnSize baseCfg baseEnv 0 ∧
      drawnSize baseCfg baseEnv 0 ≤ baseCfg.max_test_file_size_bytes ∧
      baseRep.file_stats[0]? = some (getOk (opRun baseCfg baseEnv 0).2) ∧
      (getOk (opRun baseCfg baseEnv 0).2).size =
        baseEnv.zipSize (drawnSize baseCfg baseEnv 0)) :=
  ⟨by decide, by decide,
    C3_amended baseCfg baseEnv baseRep (by decide) (by decide) 0 (by decide)⟩

/-- Unwrapping of a successful result. -/
theorem eq_ok_getOk (x : Except String FileStat) (h : x.isOk = true) :
    x = Except.ok (getOk x) := by
  cases x with
  | error e => simp at h
  | ok s => rfl

/-- C4 counterexample: upload takes 3 time units and the remote delete 5; the
recorded transfer time is 8, not 3 — the measured interval starts before
`sftp.put` and is read only after `sftp.remove`, so the delete is counted. -/
theorem C4_counterexample :
    (c4Env.transfer 0).put = Except.ok 3 ∧
    (c4Env.transfer 0).remove = Except.ok 5 ∧
    (run_tests baseCfg c4Env).1 = Except.ok c4Rep ∧
    c4Rep.file_stats.map FileStat.transfer_time = [8] ∧
    (8 : Nat) ≠ 3 := by
  decide

/-- C4 (amended): for every artifact of a completed run that reached the
transfer phase and whose upload and remote delete both succeeded, the
recorded transfer duration is the sum of the upload duration and the delete
duration: the wall-clock window covers the transmit step and the remote
delete, not the transmit alone. -/
theorem C4_amended (config : SFTPConfig) (env : RunEnv) (rep : TestReport)
    (i : Nat) (s : FileStat) (p r : Nat)
    (hrun : (run_tests config env).1 = Except.ok rep)
    (hi : i < config.num_test_files)
    (hreach : config.keep_alive_enabled = true ∨
      ((env.transfer i).connect).isOk = true)
    (hput : (env.transfer i).put = Except.ok p)
    (hrem : (env.transfer i).remove = Except.ok r)
    (hs : rep.file_stats[i]? = some s) :
    s.transfer_time = p + r ∧ s.success = true := by
  have hok : ((run_tests config env).1).isOk = true := by rw [hrun]; rfl
  obtain ⟨hnf, hop⟩ := run_ok_inv config env hok
  have hrep : rep = normalReport config env := by
    rw [hnf] at hrun
    simpa using hrun.symm
  subst hrep
  have hentry := normalReport_getElem config env i hi
  rw [hentry] at hs
  have hs2 : s = getOk (opRun config env i).2 := by
    simpa using hs.symm
  subst hs2
  have hok2 := hop i hi
  have heq := eq_ok_getOk _ hok2
  exact sftp_operation_transfer_time config (diskSize config env i) (artifactName i)
    config.keep_alive_enabled (env.transfer i) (getOk (opRun config env i).2) p r
    hreach hput hrem heq

/-- C4 witness: the counterexample run instantiates the amended claim with
upload duration 3 and delete duration 5. -/
theorem C4_witness :
    (run_tests baseCfg c4Env).1 = Except.ok c4Rep ∧
    (0 < baseCfg.num_test_files) ∧
    ((c4Env.transfer 0).connect).isOk = true ∧
    (c4Env.transfer 0).put = Except.ok 3 ∧
    (c4Env.transfer 0).remove = Except.ok 5 ∧
    c4Rep.file_stats[0]? = some (getOk (opRun baseCfg c4Env 0).2) ∧
    ((getOk (opRun baseCfg c4Env 0).2).transfer_time = 3 + 5 ∧
      (getOk (opRun baseCfg c4Env 0).2).success = true) :=
  ⟨by decide, by decide, by decide, by decide, by decide, by decide,
    C4_amended baseCfg c4Env c4Rep 0 (getOk (opRun baseCfg c4Env 0).2) 3 5
      (by decide) (by decide) (Or.inr (by decide)) (by decide) (by decide) (by decide)⟩

/-- C5 counterexample: with keep-alive disabled and one artifact whose
connect fails, the run completes (the failure is recorded in the outcome),
but no session is ever opened and none is closed — not the one open and one
close per artifact the claim states for failed transfers too. -/
theorem C5_counterexample :
    baseCfg.keep_alive_enabled = false ∧
    baseCfg.num_test_files = 1 ∧
    ((run_tests baseCfg c5Env).1).isOk = true ∧
    countOpens (run_tests baseCfg c5Env).2.2 = 0 ∧
    countCloses (run_tests baseCfg c5Env).2.2 = 0 ∧
    (0 : Nat) ≠ 1 := by
  decide

/-- C5 witness: three artifacts, the middle one failing to connect: the
completed run opened and closed exactly two sessions, the number of
artifacts whose connect succeeded. -/
theorem C5_witness :
    c5wCfg.keep_alive_enabled = false ∧
    ((run_tests c5wCfg c5wEnv).1).isOk = true ∧
    (countOpens (run_tests c5wCfg c5wEnv).2.2 =
        (idxList 0 c5wCfg.num_test_files).countP
          (fun i => ((c5wEnv.transfer i).connect).isOk) ∧
      countCloses (run_tests c5wCfg c5wEnv).2.2 =
        (idxList 0 c5wCfg.num_test_files).countP
          (fun i => ((c5wEnv.transfer i).connect).isOk)) :=
  ⟨by decide, by decide, C5_amended c5wCfg c5wEnv (by decide) (by decide)⟩

/-- C6 counterexample: keep-alive with concurrency 1 and one artifact whose
SFTP-subchannel open raises: the one pooled session is opened before
dispatch, the exception escapes the run, and the close loop — which sits in
the `try` block, not the `finally` block — never runs, so 0 sessions are
closed instead of C = 1. -/
theorem C6_counterexample :
    c6Cfg.keep_alive_enabled = true ∧
    c6Cfg.num_test_files = 1 ∧
    max_workers c6Cfg c1aEnv.cpu_count = 1 ∧
    ((run_tests c6Cfg c1aEnv).1).isOk = false ∧
    countOpens (run_tests c6Cfg c1aEnv).2.2 = 1 ∧
    countCloses (run_tests c6Cfg c1aEnv).2.2 = 0 ∧
    (0 : Nat) ≠ 1 := by
  decide

/-- C6 witness: keep-alive with two workers and three artifacts, one upload
failing: the completed run opens exactly two sessions and closes exactly
two. -/
theorem C6_witness :
    c6wCfg.keep_alive_enabled = true ∧
    ((run_tests c6wCfg c6wEnv).1).isOk = true ∧
    max_workers c6wCfg c6wEnv.cpu_count = 2 ∧
    (countOpens (run_tests c6wCfg c6wEnv).2.2 = max_workers c6wCfg c6wEnv.cpu_count ∧
      countCloses (run_tests c6wCfg c6wEnv).2.2 = max_workers c6wCfg c6wEnv.cpu_count) :=
  ⟨by decide, by decide, by decide, C6_amended c6wCfg c6wEnv (by decide) (by decide)⟩

/-- C7 counterexample: with a positive sleep interval configured, an attempt
whose ephemeral connect fails completes (it returns a failed outcome), yet
no pause happens: the early return on a connect failure skips the sleep. -/
theorem C7_counterexample :
    c7Cfg.sftp_sleep_interval > 0 ∧
    ((sftp_operation c7Cfg 1130 "test_0.zip" false (c5Env.transfer 0)).2).isOk = true ∧
    countSleeps (sftp_operation c7Cfg 1130 "test_0.zip" false (c5Env.transfer 0)).1 = 0 := by
  decide

/-- C7 witness: a successful pooled attempt under a sleep interval of 5
pauses exactly once, as the last action of the attempt. -/
theorem C7_witness :
    ((true : Bool) = true ∨ (okTransfer.connect).isOk = true) ∧
    (okTransfer.open_sftp).isOk = true ∧
    (countSleeps (sftp_operation c7Cfg 1130 "a.zip" true okTransfer).1 =
        (if c7Cfg.sftp_sleep_interval > 0 then 1 else 0) ∧
      (c7Cfg.sftp_sleep_interval > 0 →
        ((sftp_operation c7Cfg 1130 "a.zip" true okTransfer).1).getLast? =
          some (Event.sleepCall c7Cfg.sftp_sleep_interval))) :=
  ⟨Or.inl rfl, by decide,
    C7_amended c7Cfg 1130 "a.zip" true okTransfer (Or.inl rfl) (by decide)⟩

/-- C8 counterexample: a payload write that fails with the archive file
already created (the `zipfile.ZipFile(destination, "w")` call creates it
before `zf.write` streams the payload) aborts the run, and the partial
file — never appended to `paths` — survives the cleanup loop; the
`os.rmdir` then fails on the non-empty directory. -/
theorem C8_counterexample :
    (run_tests baseCfg c8Env).2.1 = ["test_0.zip"] ∧
    (run_tests baseCfg c8Env).1 = Except.error (RunExc.cleanup "Directory not empty") ∧
    ("test_0.zip" :: []) ≠ ([] : List String) := by
  decide

/-- C8 witness: a run aborted by a payload write failure that happens before
the archive file exists still leaves the scratch directory empty. -/
theorem C8_witness :
    (∀ i, i < baseCfg.num_test_files → ((c8wEnv.gen i).leavesPartial = false)) ∧
    (run_tests baseCfg c8wEnv).2.1 = [] :=
  ⟨by decide, C8_amended baseCfg c8wEnv (by decide)⟩

/-- C9 counterexample: the claim says every negative `connectTimeout` means
"block indefinitely", but only the literal `-1` is mapped to `timeout=None`;
the value `-2` is negative and is passed through as `timeout=-2`. -/
theorem C9_counterexample :
    c9Cfg.connect_timeout_seconds < 0 ∧
    (_create_client c9Cfg).timeout = some (-2) ∧
    (some (-2 : Int) : Option Int) ≠ none := by
  decide

/-- C9 (amended): the connect call carries no timeout exactly when the
configured value is the literal `-1`; every other value — non-negative or
negative — is passed through as that many seconds. -/
theorem C9_amended (config : SFTPConfig) :
    ((_create_client config).timeout = none ↔
      config.connect_timeout_seconds = -1) ∧
    (config.connect_timeout_seconds ≠ -1 →
      (_create_client config).timeout = some config.connect_timeout_seconds) := by
  constructor
  · constructor
    · intro h
      by_contra hne
      simp [_create_client, hne] at h
    · intro h
      simp [_create_client, h]
  · intro h
    simp [_create_client, h]

/-- C9 witness: the default timeout 20 is passed through, and is not the
no-timeout case. -/
theorem C9_witness :
    baseCfg.connect_timeout_seconds ≠ -1 ∧
    ((_create_client baseCfg).timeout = none ↔
      baseCfg.connect_timeout_seconds = -1) ∧
    (_create_client baseCfg).timeout = some baseCfg.connect_timeout_seconds :=
  ⟨by decide, (C9_amended baseCfg).1, (C9_amended baseCfg).2 (by decide)⟩

/-- C10: the retry-attempts option is accepted by the configuration but has
no effect on the transfer path: two configurations differing only in
`retry_attempts` produce the identical run — the same report or escaped
exception, the same remaining scratch files, and the same event trace
(session opens, uploads, deletes, closes, sleeps) — the identical single
operation, and the identical connect call. -/
theorem C10_retry_attempts_unused (config : SFTPConfig) (env : RunEnv) (k : Int) :
    run_tests { config with retry_attempts := k } env = run_tests config env ∧
    (∀ (file_size : Nat) (remote_name : String) (clientGiven : Bool)
      (tenv : TransferEnv),
      sftp_operation { config with retry_attempts := k } file_size remote_name
          clientGiven tenv =
        sftp_operation config file_size remote_name clientGiven tenv) ∧
    _create_client { config with retry_attempts := k } = _create_client config :=
  ⟨rfl, fun _ _ _ _ => rfl, rfl⟩
